import Mathlib

/-!
Verification of the Food Waste Preventer app (src/App.tsx) against its
natural-language specification.

The TypeScript source is shallowly embedded: JavaScript strings are Lean
strings (the inputs of interest are ASCII), numbers that the program only
ever uses as non-negative integers (hours, minutes, timestamps) are Nat,
fallible operations return Option, and stateful React code is modelled as
explicit state-passing functions together with a small step relation for the
effect machinery. External collaborators (the notification service, the
key-value store, the vibration API) appear as explicit inputs and as recorded
effect lists in the outputs.
-/

namespace FoodWastePreventer

/-! ## JavaScript string primitives used by App.tsx -/

/-- Model of JavaScript `String.prototype.trim`: remove leading and trailing
whitespace. `Char.isWhitespace` covers the ASCII whitespace characters
(space, tab, CR, LF), which is what the repository's inputs use. -/
def jsTrim (s : String) : String :=
  String.mk (((s.data.dropWhile Char.isWhitespace).reverse.dropWhile Char.isWhitespace).reverse)

/-- Model of JavaScript `String.prototype.toLowerCase` on ASCII text:
`Char.toLower` lowercases exactly the letters A-Z. -/
def jsToLowerCase (s : String) : String :=
  String.mk (s.data.map Char.toLower)

/-- Model of JavaScript `padStart(2, "0")` as used in `formatTime`
(src/App.tsx line 47): left-pad with zeros to length 2. -/
def padStart2 (s : String) : String :=
  if s.length < 2 then String.mk (List.replicate (2 - s.length) '0') ++ s else s

/-! ## Time Parser/Formatter (src/App.tsx lines 46-56) -/

/-- The `hour`/`minute` record returned by `parseTime`. -/
structure TimeOfDay where
  hour : Nat
  minute : Nat
deriving DecidableEq

/-- `formatTime` (src/App.tsx lines 46-48): zero-padded rendering of
(hour, minute) as HH:MM. -/
def formatTime (hour minute : Nat) : String :=
  padStart2 (Nat.repr hour) ++ ":" ++ padStart2 (Nat.repr minute)

/-- Numeric value of an ASCII digit character, as `Number` computes it on a
digit string. -/
def digitVal (c : Char) : Nat := c.toNat - 48

/-- Character class `\d` of the regex in `parseTime`: an ASCII digit. -/
def isAsciiDigit (c : Char) : Bool := 48 ≤ c.toNat && c.toNat ≤ 57

/-- Character class `[0-5]` of the regex in `parseTime`. -/
def isTensOfMinute (c : Char) : Bool := 48 ≤ c.toNat && c.toNat ≤ 53

/-- The two-character alternatives of the hour group `([01]?\d|2[0-3])` of the
regex in `parseTime`: `[01]` followed by a digit, or `2` followed by `[0-3]`. -/
def isHourPair (h1 h2 : Char) : Bool :=
  ((h1 = '0' || h1 = '1') && isAsciiDigit h2) || (h1 = '2' && 48 ≤ h2.toNat && h2.toNat ≤ 51)

/-- The anchored regex match of `parseTime` (src/App.tsx line 51), read off the
character list of the (already trimmed) input. The pattern
matches exactly the four-character strings digit, colon, `[0-5]`, digit
(the hour group taking its one-character alternative) and the five-character
strings hour-pair, colon, `[0-5]`, digit; `Number` on the captured digit
groups yields the place-value sums below. -/
def parseTimeChars : List Char → Option TimeOfDay
  | [h, c, m1, m2] =>
      if c = ':' && isAsciiDigit h && isTensOfMinute m1 && isAsciiDigit m2 then
        some ⟨digitVal h, 10 * digitVal m1 + digitVal m2⟩
      else none
  | [h1, h2, c, m1, m2] =>
      if c = ':' && isHourPair h1 h2 && isTensOfMinute m1 && isAsciiDigit m2 then
        some ⟨10 * digitVal h1 + digitVal h2, 10 * digitVal m1 + digitVal m2⟩
      else none
  | _ => none

/-- `parseTime` (src/App.tsx lines 50-56): trim the raw text, run the anchored
regex, and return the captured hour and minute, or `none` when the regex does
not match. -/
def parseTime (raw : String) : Option TimeOfDay :=
  parseTimeChars (jsTrim raw).data

/-- Zero-padded two-digit rendering of a number below 100, used to state the
spec's accepted time-string language. -/
def twoDigitString (n : Nat) : String := padStart2 (Nat.repr n)

/-- The spec's accepted time-string language for claim C3, stated from the
spec's words: a string is a rendering of (h, m) when hour is in 0-23 and
minute in 00-59, written `H:MM` (hour without padding) or `HH:MM` (hour
zero-padded; for hours at least 10 the two renderings coincide). -/
def specTimeForm (s : String) (h m : Nat) : Prop :=
  h ≤ 23 ∧ m ≤ 59 ∧
    (s = Nat.repr h ++ ":" ++ twoDigitString m ∨ s = twoDigitString h ++ ":" ++ twoDigitString m)

instance (s : String) (h m : Nat) : Decidable (specTimeForm s h m) := by
  unfold specTimeForm
  exact inferInstance

/-! ## Helper lemmas about digit characters and renderings -/

theorem string_mk_data (s : String) : String.mk s.data = s := by
  cases s
  rfl

theorem repr_digitVal {c : Char} (h1 : 48 ≤ c.toNat) (h2 : c.toNat ≤ 57) :
    Nat.repr (digitVal c) = String.mk [c] := by
  have key : ∀ n, n < 58 → 48 ≤ n → Nat.repr (n - 48) = String.mk [Char.ofNat n] := by decide
  have h3 := key c.toNat (by omega) h1
  rw [Char.ofNat_toNat] at h3
  exact h3

theorem twoDigitString_digitVals {c1 c2 : Char} (h1 : 48 ≤ c1.toNat) (h2 : c1.toNat ≤ 57)
    (h3 : 48 ≤ c2.toNat) (h4 : c2.toNat ≤ 57) :
    twoDigitString (10 * digitVal c1 + digitVal c2) = String.mk [c1, c2] := by
  have key : ∀ a, a < 58 → ∀ b, b < 58 → 48 ≤ a → 48 ≤ b →
      twoDigitString (10 * (a - 48) + (b - 48)) = String.mk [Char.ofNat a, Char.ofNat b] := by
    decide
  have h5 := key c1.toNat (by omega) c2.toNat (by omega) h1 h3
  rw [Char.ofNat_toNat, Char.ofNat_toNat] at h5
  exact h5

theorem parseTimeChars_complete : ∀ h < 24, ∀ m < 60,
    parseTimeChars ((Nat.repr h ++ ":" ++ twoDigitString m).data) = some ⟨h, m⟩ ∧
    parseTimeChars ((twoDigitString h ++ ":" ++ twoDigitString m).data) = some ⟨h, m⟩ := by
  decide

theorem parseTimeChars_sound {l : List Char} {h m : Nat}
    (hp : parseTimeChars l = some ⟨h, m⟩) :
    h ≤ 23 ∧ m ≤ 59 ∧
      (String.mk l = Nat.repr h ++ ":" ++ twoDigitString m ∨
        String.mk l = twoDigitString h ++ ":" ++ twoDigitString m) := by
  rcases l with _ | ⟨c0, _ | ⟨c1, _ | ⟨c2, _ | ⟨c3, _ | ⟨c4, rest⟩⟩⟩⟩⟩
  · simp [parseTimeChars] at hp
  · simp [parseTimeChars] at hp
  · simp [parseTimeChars] at hp
  · simp [parseTimeChars] at hp
  · -- four characters: digit, colon, [0-5], digit
    simp only [parseTimeChars] at hp
    split at hp
    case isTrue hcond =>
      simp only [Bool.and_eq_true, decide_eq_true_eq, isAsciiDigit, isTensOfMinute] at hcond
      obtain ⟨⟨⟨hc, hd1, hd2⟩, hm11, hm12⟩, hm21, hm22⟩ := hcond
      obtain ⟨rfl, rfl⟩ : digitVal c0 = h ∧ 10 * digitVal c2 + digitVal c3 = m := by
        injection hp with hp
        injection hp with hh hm
        exact ⟨hh, hm⟩
      subst hc
      refine ⟨by unfold digitVal; omega, by unfold digitVal; omega, Or.inl ?_⟩
      rw [repr_digitVal hd1 hd2, twoDigitString_digitVals hm11 (by omega) hm21 hm22]
      rfl
    case isFalse => exact absurd hp (by simp)
  · rcases rest with _ | ⟨c5, rest⟩
    · -- five characters: hour pair, colon, [0-5], digit
      simp only [parseTimeChars] at hp
      split at hp
      case isTrue hcond =>
        simp only [Bool.and_eq_true, Bool.or_eq_true, decide_eq_true_eq,
          isAsciiDigit, isTensOfMinute, isHourPair] at hcond
        obtain ⟨⟨⟨hc, hpair⟩, hm11, hm12⟩, hm21, hm22⟩ := hcond
        obtain ⟨rfl, rfl⟩ :
            10 * digitVal c0 + digitVal c1 = h ∧ 10 * digitVal c3 + digitVal c4 = m := by
          injection hp with hp
          injection hp with hh hm
          exact ⟨hh, hm⟩
        subst hc
        have hbounds : 48 ≤ c0.toNat ∧ c0.toNat ≤ 57 ∧ 48 ≤ c1.toNat ∧ c1.toNat ≤ 57 ∧
            10 * digitVal c0 + digitVal c1 ≤ 23 := by
          rcases hpair with ⟨h01, hb1, hb2⟩ | ⟨⟨hc0eq, hb1⟩, hb2⟩
          · have hc0 : c0.toNat = 48 ∨ c0.toNat = 49 := by
              rcases h01 with rfl | rfl
              · exact Or.inl rfl
              · exact Or.inr rfl
            unfold digitVal
            omega
          · have hc0 : c0.toNat = 50 := by
              rw [hc0eq]
              decide
            unfold digitVal
            omega
        obtain ⟨hb1, hb2, hb3, hb4, hb5⟩ := hbounds
        refine ⟨hb5, by unfold digitVal; omega, Or.inr ?_⟩
        rw [twoDigitString_digitVals hb1 hb2 hb3 hb4,
          twoDigitString_digitVals hm11 (by omega) hm21 hm22]
        rfl
      case isFalse => exact absurd hp (by simp)
    · simp [parseTimeChars] at hp

theorem parseTime_characterization (s : String) (h m : Nat) :
    parseTime s = some ⟨h, m⟩ ↔ specTimeForm (jsTrim s) h m := by
  constructor
  · intro hp
    obtain ⟨hh, hm, hs⟩ := parseTimeChars_sound hp
    rw [string_mk_data] at hs
    exact ⟨hh, hm, hs⟩
  · rintro ⟨hh, hm, hs | hs⟩
    · have := (parseTimeChars_complete h (by omega) m (by omega)).1
      unfold parseTime
      rw [hs]
      exact this
    · have := (parseTimeChars_complete h (by omega) m (by omega)).2
      unfold parseTime
      rw [hs]
      exact this

/-! ## Claim C2: round trip -/

/-- C2: for every hour h in [0,23] and minute m in [0,59],
`parseTime (formatTime h m)` succeeds and returns exactly that hour and
minute: `formatTime` always renders the zero-padded HH:MM string, and
`parseTime` parses it back (round-trip law). -/
theorem C2_parse_format_round_trip :
    ∀ h < 24, ∀ m < 60, parseTime (formatTime h m) = some ⟨h, m⟩ := by
  decide

theorem C2_parse_format_round_trip_witness :
    18 < 24 ∧ 30 < 60 ∧ parseTime (formatTime 18 30) = some ⟨18, 30⟩ :=
  ⟨by decide, by decide, C2_parse_format_round_trip 18 (by decide) 30 (by decide)⟩

/-! ## Claim C3: the accepted input language of parseTime -/

/-- C3 (amended): `parseTime` never fails with an exception (it is total and
returns an Option), and it accepts exactly the strings whose trimmed form
matches 24-hour `H:MM` or `HH:MM` (hour 0-23, minute 00-59, optional leading
zero on the hour); in particular it rejects "24:00", "12:60", "1830", "" and
"9:5". The amendment relative to the claim as frozen: the code trims the raw
input before matching, so surrounding whitespace is accepted; on
whitespace-free inputs the characterization is exactly the claim's. -/
theorem C3_parse_language :
    (∀ s h m, parseTime s = some ⟨h, m⟩ ↔ specTimeForm (jsTrim s) h m) ∧
    parseTime "24:00" = none ∧ parseTime "12:60" = none ∧
    parseTime "1830" = none ∧ parseTime "" = none ∧ parseTime "9:5" = none :=
  ⟨parseTime_characterization, by decide, by decide, by decide, by decide, by decide⟩

/-- C3 counterexample to the claim as frozen: the input " 18:30" (leading
space) does not match `H:MM` or `HH:MM`, yet `parseTime` accepts it instead
of yielding null, because the code trims the raw input first. -/
theorem C3_counterexample :
    parseTime " 18:30" = some ⟨18, 30⟩ ∧ ¬ specTimeForm " 18:30" 18 30 := by
  constructor
  · decide
  · decide

/-! ## Data model of App.tsx (lines 18-34, 58-65) -/

/-- The two persistent screens (src/App.tsx line 18). -/
inductive AppScreen
  | tools
  | foodWastePreventer
deriving DecidableEq

/-- MealEntry (src/App.tsx lines 20-27). -/
structure MealEntry where
  id : String
  name : String
  hour : Nat
  minute : Nat
  notificationId : String
  createdAt : Nat
deriving DecidableEq

/-- ActiveAlarm (src/App.tsx lines 29-32). -/
structure ActiveAlarm where
  mealId : String
  mealName : String
deriving DecidableEq

/-- The component state of App (src/App.tsx lines 59-64): the current screen,
the meal list, the two form inputs, the alarm session, and the typed
confirmation sentence. -/
structure AppState where
  screen : AppScreen
  meals : List MealEntry
  mealName : String
  dailyTime : String
  activeAlarm : Option ActiveAlarm
  alarmSentence : String
deriving DecidableEq

/-! ## Sentence gate (src/App.tsx lines 222-231, 308-326) -/

/-- `requiredSentence` (src/App.tsx lines 222-227): empty when no session is
active, otherwise the fixed sentence around the lowercased meal name. -/
def requiredSentence (activeAlarm : Option ActiveAlarm) : String :=
  match activeAlarm with
  | none => ""
  | some alarm => "my name is sarah and i will use the " ++ jsToLowerCase alarm.mealName ++ " today"

/-- `canAcknowledge` (src/App.tsx lines 229-231): the typed text, trimmed and
lowercased, compared for exact equality with the required sentence. The modal
renders the Dismiss and Cancel buttons exactly when this is true (lines
308-326). -/
def canAcknowledge (alarmSentence : String) (activeAlarm : Option ActiveAlarm) : Bool :=
  jsToLowerCase (jsTrim alarmSentence) == requiredSentence activeAlarm

/-! ## addMeal (src/App.tsx lines 166-205) -/

/-- The arguments of the one `Notifications.scheduleNotificationAsync` call
(src/App.tsx lines 180-193): notification content (title, body, data payload)
and the daily trigger. -/
structure ScheduledTrigger where
  title : String
  body : String
  mealId : String
  mealName : String
  hour : Nat
  minute : Nat
deriving DecidableEq

/-- What one invocation of `addMeal` produces: the next component state, the
advisory dialogs shown (title, message), and the scheduler triggers
registered. -/
structure AddMealOutcome where
  state : AppState
  alerts : List (String × String)
  scheduled : List ScheduledTrigger
deriving DecidableEq

/-- `addMeal` (src/App.tsx lines 166-205). The external inputs that the code
reads from the environment are passed explicitly: `now` (the `Date.now()`
used in the generated id), `rand` (the `Math.random().toString(36).slice(2, 8)`
suffix), `notificationId` (returned by the scheduler), and `createdNow` (the
second `Date.now()`, stored in `createdAt`). An empty trimmed name or an
unparsable time aborts with an advisory and no other effect; otherwise one
trigger is registered and the new entry is prepended to the list. -/
def addMeal (now : Nat) (rand : String) (notificationId : String) (createdNow : Nat)
    (s : AppState) : AddMealOutcome :=
  let trimmedName := jsTrim s.mealName
  if trimmedName = "" then
    ⟨s, [("Meal required", "Enter a meal name like Tuna casserole.")], []⟩
  else
    match parseTime s.dailyTime with
    | none => ⟨s, [("Time format", "Use 24h HH:MM format, for example 18:30.")], []⟩
    | some parsedTime =>
        let id := Nat.repr now ++ "-" ++ rand
        let nextEntry : MealEntry :=
          ⟨id, trimmedName, parsedTime.hour, parsedTime.minute, notificationId, createdNow⟩
        ⟨{ s with meals := nextEntry :: s.meals, mealName := "" },
          [],
          [⟨"Food Waste Preventer", "Use your " ++ trimmedName ++ " today.",
            id, trimmedName, parsedTime.hour, parsedTime.minute⟩]⟩

/-! ## cancelMealAlarm (src/App.tsx lines 207-220) and the modal actions -/

/-- What one invocation of `cancelMealAlarm` produces: the next component
state and the notification ids passed to
`Notifications.cancelScheduledNotificationAsync`. -/
structure CancelOutcome where
  state : AppState
  canceledNotificationIds : List String
deriving DecidableEq

/-- `cancelMealAlarm` (src/App.tsx lines 207-220): find the meal by id
(returning early with no effect when absent), cancel its scheduled
notification, drop it from the list, and clear the alarm session when it was
the session's meal. -/
def cancelMealAlarm (mealId : String) (s : AppState) : CancelOutcome :=
  match s.meals.find? (fun meal => meal.id == mealId) with
  | none => ⟨s, []⟩
  | some target =>
      ⟨{ s with
          meals := s.meals.filter (fun meal => meal.id != mealId),
          activeAlarm :=
            match s.activeAlarm with
            | some alarm => if alarm.mealId == mealId then none else some alarm
            | none => none },
        [target.notificationId]⟩

/-- The Cancel This Alarm button of the modal (src/App.tsx lines 313-322):
when a session is active, invoke `cancelMealAlarm` on the session's mealId.
The button is rendered only when `canAcknowledge` holds (line 308). -/
def cancelThisAlarmPress (s : AppState) : CancelOutcome :=
  match s.activeAlarm with
  | some alarm => cancelMealAlarm alarm.mealId s
  | none => ⟨s, []⟩

/-! ## Notification event handlers (src/App.tsx lines 92-98 and 111-133) -/

/-- The `data` payload attached to a notification, each field possibly
missing. -/
structure NotificationData where
  mealId : Option String
  mealName : Option String
deriving DecidableEq

/-- JavaScript truthiness test used on the payload fields: `!x` is true for a
missing field and for the empty string. -/
def optionStringFalsy : Option String → Bool
  | none => true
  | some v => v == ""

/-- The `addNotificationReceivedListener` callback (src/App.tsx lines
112-119): ignore payloads with a falsy mealId or mealName, otherwise start
the alarm session and force navigation to the tool screen. -/
def handleNotificationReceived (data : NotificationData) (s : AppState) : AppState :=
  if optionStringFalsy data.mealId || optionStringFalsy data.mealName then s
  else
    { s with
        activeAlarm := some ⟨data.mealId.getD "", data.mealName.getD ""⟩,
        screen := AppScreen.foodWastePreventer }

/-- The `addNotificationResponseReceivedListener` callback (src/App.tsx lines
121-133), for tapped notifications: same body as the received-listener. -/
def handleNotificationResponse (data : NotificationData) (s : AppState) : AppState :=
  if optionStringFalsy data.mealId || optionStringFalsy data.mealName then s
  else
    { s with
        activeAlarm := some ⟨data.mealId.getD "", data.mealName.getD ""⟩,
        screen := AppScreen.foodWastePreventer }

/-- The cold-start check of `getLastNotificationResponseAsync` (src/App.tsx
lines 92-98): when a last response exists and both payload fields are truthy,
start the alarm session; the screen is not changed here. -/
def handleLastNotificationResponse (data : Option NotificationData) (s : AppState) : AppState :=
  match data with
  | none => s
  | some d =>
      if optionStringFalsy d.mealId || optionStringFalsy d.mealName then s
      else { s with activeAlarm := some ⟨d.mealId.getD "", d.mealName.getD ""⟩ }

/-! ## Claim C1: the sentence gate -/

/-- C1: for an active alarm session with meal name N, the Dismiss and Cancel
actions are enabled (the modal renders them, gated by `canAcknowledge`)
exactly when trimming then lowercasing the typed text yields
"my name is sarah and i will use the " followed by lowercase(N) and " today";
the check is exact, so for N = "Tuna Casserole" the title-cased sentence
matches while trailing punctuation or an interior deviation does not. -/
theorem C1_sentence_gate (typed mid mealName : String) :
    (canAcknowledge typed (some ⟨mid, mealName⟩) = true ↔
      jsToLowerCase (jsTrim typed) =
        "my name is sarah and i will use the " ++ jsToLowerCase mealName ++ " today") ∧
    canAcknowledge "My Name Is Sarah And I Will Use The Tuna Casserole Today"
      (some ⟨"m1", "Tuna Casserole"⟩) = true ∧
    canAcknowledge "My Name Is Sarah And I Will Use The Tuna Casserole Today."
      (some ⟨"m1", "Tuna Casserole"⟩) = false ∧
    canAcknowledge "My Name Is Sarah And I Will Use The Tuna  Casserole Today"
      (some ⟨"m1", "Tuna Casserole"⟩) = false := by
  refine ⟨?_, by decide, by decide, by decide⟩
  simp [canAcknowledge, requiredSentence]

/-! ## Claim C4: successful addMeal -/

/-- C4: for every state whose meal name trims to non-empty text and whose
time text parses as (h, m), `addMeal` registers exactly one scheduler trigger
tagged with the freshly generated id and the trimmed name, and prepends
exactly one new entry carrying the trimmed name and the parsed hour and
minute, leaving all existing entries unchanged (most-recently-added first). -/
theorem C4_addMeal_success (now : Nat) (rand notificationId : String) (createdNow : Nat)
    (s : AppState) (h m : Nat)
    (hname : jsTrim s.mealName ≠ "")
    (htime : parseTime s.dailyTime = some ⟨h, m⟩) :
    addMeal now rand notificationId createdNow s =
      ⟨{ s with
          meals := ⟨Nat.repr now ++ "-" ++ rand, jsTrim s.mealName, h, m, notificationId,
            createdNow⟩ :: s.meals,
          mealName := "" },
        [],
        [⟨"Food Waste Preventer", "Use your " ++ jsTrim s.mealName ++ " today.",
          Nat.repr now ++ "-" ++ rand, jsTrim s.mealName, h, m⟩]⟩ := by
  simp only [addMeal, htime, if_neg hname]

/-- State used to evaluate the witnesses of C4: the tool screen with
" Tuna " and "18:30" typed into the two inputs. -/
def addMealDemoState : AppState :=
  ⟨AppScreen.foodWastePreventer, [], " Tuna ", "18:30", none, ""⟩

theorem C4_addMeal_success_witness :
    jsTrim " Tuna " ≠ "" ∧ parseTime "18:30" = some ⟨18, 30⟩ ∧
    addMeal 5 "abc123" "notif-1" 6 addMealDemoState =
      ⟨⟨AppScreen.foodWastePreventer, [⟨"5-abc123", "Tuna", 18, 30, "notif-1", 6⟩], "",
          "18:30", none, ""⟩,
        [],
        [⟨"Food Waste Preventer", "Use your Tuna today.", "5-abc123", "Tuna", 18, 30⟩]⟩ :=
  ⟨by decide, by decide,
    C4_addMeal_success 5 "abc123" "notif-1" 6 addMealDemoState 18 30 (by decide) (by decide)⟩

/-! ## Claim C5: addMeal aborts on validation failure -/

/-- C5: adding a meal whose name trims to the empty string, or whose time
text fails to parse, shows exactly one advisory dialog, changes no state and
registers no scheduler trigger. (The persist effect of lines 104-109 runs
only when `meals` changes, so an unchanged state also produces no new
storage write.) -/
theorem C5_addMeal_validation_failure (now : Nat) (rand notificationId : String)
    (createdNow : Nat) (s : AppState)
    (hfail : jsTrim s.mealName = "" ∨ parseTime s.dailyTime = none) :
    (addMeal now rand notificationId createdNow s).state = s ∧
    (addMeal now rand notificationId createdNow s).scheduled = [] ∧
    (addMeal now rand notificationId createdNow s).alerts.length = 1 := by
  rcases hfail with hname | htime
  · simp [addMeal, hname]
  · by_cases hname : jsTrim s.mealName = ""
    · simp [addMeal, hname]
    · simp [addMeal, hname, htime]

/-- State used to evaluate the witness of C5: a meal name of blanks only. -/
def blankNameState : AppState :=
  ⟨AppScreen.foodWastePreventer, [], "   ", "18:30", none, ""⟩

theorem C5_addMeal_validation_failure_witness :
    (addMeal 5 "abc123" "notif-1" 6 blankNameState).state = blankNameState ∧
    (addMeal 5 "abc123" "notif-1" 6 blankNameState).scheduled = [] ∧
    (addMeal 5 "abc123" "notif-1" 6 blankNameState).alerts.length = 1 :=
  C5_addMeal_validation_failure 5 "abc123" "notif-1" 6 blankNameState (Or.inl (by decide))

/-! ## Claim C6: Cancel This Alarm -/

/-- A reachable state shape in which the session's meal id is not in the meal
list: the session payload is copied from the notification event, not re-read
from the store, so it can name a meal deleted in an earlier run. -/
def ghostAlarmState : AppState :=
  ⟨AppScreen.foodWastePreventer, [], "", "18:00", some ⟨"ghost", "Tuna"⟩,
    "my name is sarah and i will use the tuna today"⟩

/-- C6 counterexample to the claim as frozen: with the sentence gate
satisfied and the session active for meal id "ghost" (absent from the list),
pressing Cancel This Alarm invokes `cancelMealAlarm`, which returns early at
the failed find and does not clear the session: no transition to Idle. -/
theorem C6_counterexample :
    canAcknowledge ghostAlarmState.alarmSentence ghostAlarmState.activeAlarm = true ∧
    cancelThisAlarmPress ghostAlarmState = ⟨ghostAlarmState, []⟩ ∧
    (cancelThisAlarmPress ghostAlarmState).state.activeAlarm = some ⟨"ghost", "Tuna"⟩ := by
  refine ⟨by decide, by decide, by decide⟩

/-- C6 (amended): whenever the session is active, the sentence gate is
satisfied and the session's meal id is present in the meal list, the Cancel
This Alarm action clears the session (Active to Idle), removes that meal from
the list and cancels its scheduled notification. The amendment relative to
the claim as frozen: when the session's meal id is absent from the list,
`cancelMealAlarm` is a no-op and the session stays active. -/
theorem C6_cancel_clears_active_session (s : AppState) (alarm : ActiveAlarm)
    (target : MealEntry)
    (hactive : s.activeAlarm = some alarm)
    (_hgate : canAcknowledge s.alarmSentence s.activeAlarm = true)
    (hfound : s.meals.find? (fun meal => meal.id == alarm.mealId) = some target) :
    (cancelThisAlarmPress s).state.activeAlarm = none ∧
    (cancelThisAlarmPress s).state.meals =
      s.meals.filter (fun meal => meal.id != alarm.mealId) ∧
    (cancelThisAlarmPress s).canceledNotificationIds = [target.notificationId] := by
  simp only [cancelThisAlarmPress, hactive, cancelMealAlarm, hfound]
  simp [hactive]

/-- State used to evaluate the witness of C6: one meal, an active session for
it, and a typed sentence that passes the gate after trim and lowercase. -/
def cancelDemoState : AppState :=
  ⟨AppScreen.foodWastePreventer, [⟨"m1", "Tuna", 18, 30, "notif-1", 0⟩], "", "18:00",
    some ⟨"m1", "Tuna"⟩, "My name is Sarah and I will use the Tuna today "⟩

theorem C6_cancel_clears_active_session_witness :
    (cancelThisAlarmPress cancelDemoState).state.activeAlarm = none ∧
    (cancelThisAlarmPress cancelDemoState).state.meals = [] ∧
    (cancelThisAlarmPress cancelDemoState).canceledNotificationIds = ["notif-1"] :=
  C6_cancel_clears_active_session cancelDemoState ⟨"m1", "Tuna"⟩
    ⟨"m1", "Tuna", 18, 30, "notif-1", 0⟩ (by decide) (by decide) (by decide)

/-! ## Claim C7: delivered and tapped events share one behaviour -/

/-- C7: the delivered-notification handler and the tapped-notification
handler are extensionally equal, and on a payload carrying a (non-empty)
mealId and mealName both produce the same state: the session active for that
payload and the screen forced to the tool screen. -/
theorem C7_delivered_tapped_equivalent (s : AppState) (mid mname : String)
    (hmid : mid ≠ "") (hmname : mname ≠ "") :
    (∀ data : NotificationData,
      handleNotificationReceived data s = handleNotificationResponse data s) ∧
    handleNotificationReceived ⟨some mid, some mname⟩ s =
      { s with activeAlarm := some ⟨mid, mname⟩, screen := AppScreen.foodWastePreventer } ∧
    handleNotificationResponse ⟨some mid, some mname⟩ s =
      { s with activeAlarm := some ⟨mid, mname⟩, screen := AppScreen.foodWastePreventer } := by
  have hfalsy1 : optionStringFalsy (some mid) = false := by
    simp [optionStringFalsy, beq_eq_false_iff_ne, hmid]
  have hfalsy2 : optionStringFalsy (some mname) = false := by
    simp [optionStringFalsy, beq_eq_false_iff_ne, hmname]
  refine ⟨fun data => rfl, ?_, ?_⟩
  · simp [handleNotificationReceived, hfalsy1, hfalsy2]
  · simp [handleNotificationResponse, hfalsy1, hfalsy2]

/-- State used to evaluate the witnesses of C7 and C10: the menu screen with
no session. -/
def notifDemoState : AppState := ⟨AppScreen.tools, [], "", "18:00", none, ""⟩

theorem C7_delivered_tapped_equivalent_witness :
    handleNotificationReceived ⟨some "m1", some "Tuna"⟩ notifDemoState =
      handleNotificationResponse ⟨some "m1", some "Tuna"⟩ notifDemoState ∧
    handleNotificationReceived ⟨some "m1", some "Tuna"⟩ notifDemoState =
      { notifDemoState with
          activeAlarm := some ⟨"m1", "Tuna"⟩, screen := AppScreen.foodWastePreventer } :=
  ⟨(C7_delivered_tapped_equivalent notifDemoState "m1" "Tuna" (by decide) (by decide)).1
      ⟨some "m1", some "Tuna"⟩,
    (C7_delivered_tapped_equivalent notifDemoState "m1" "Tuna" (by decide) (by decide)).2.1⟩

/-! ## Claim C10: events with a missing payload field change nothing -/

/-- C10: a delivered event, a tapped event, or the cold-start last-response
check whose payload misses mealId or mealName returns without any state
change: no session starts, the screen is untouched, and the meal list is
untouched (the whole state is unchanged). -/
theorem C10_missing_payload_ignored (s : AppState) (data : NotificationData)
    (hmissing : data.mealId = none ∨ data.mealName = none) :
    handleNotificationReceived data s = s ∧
    handleNotificationResponse data s = s ∧
    handleLastNotificationResponse (some data) s = s ∧
    handleLastNotificationResponse none s = s := by
  have hfalsy : (optionStringFalsy data.mealId || optionStringFalsy data.mealName) = true := by
    rcases hmissing with hmid | hmname
    · simp [hmid, optionStringFalsy]
    · simp [hmname, optionStringFalsy]
  refine ⟨?_, ?_, ?_, rfl⟩
  · simp [handleNotificationReceived, hfalsy]
  · simp [handleNotificationResponse, hfalsy]
  · simp [handleLastNotificationResponse, hfalsy]

theorem C10_missing_payload_ignored_witness :
    handleNotificationReceived ⟨none, some "Tuna"⟩ notifDemoState = notifDemoState ∧
    handleNotificationResponse ⟨none, some "Tuna"⟩ notifDemoState = notifDemoState ∧
    handleLastNotificationResponse (some ⟨none, some "Tuna"⟩) notifDemoState = notifDemoState ∧
    handleLastNotificationResponse none notifDemoState = notifDemoState :=
  C10_missing_payload_ignored notifDemoState ⟨none, some "Tuna"⟩ (Or.inl rfl)

/-! ## Claim C8: the vibration effect (src/App.tsx lines 141-164)

The effect with dependency `[activeAlarm]` is modelled by React's effect
semantics: it runs once after mount, and on every change of `activeAlarm` the
cleanup returned by the previous run (if any) runs first, then the effect
body runs with the new value; on component teardown the last cleanup runs.
`liveIntervals` counts the repeating interval timers currently alive (a
leaked timer would leave it positive), `intervalRefSet` mirrors
`vibrationIntervalRef.current` being non-null, and `cleanupRegistered`
records whether the previous effect run returned a cleanup (the Idle branch
of the effect returns without one, line 149). Typing into the confirmation
input is possible only while the modal is visible, i.e. while a session is
active (line 293). -/

/-- The subset of component state the vibration effect machinery touches. -/
structure VibState where
  activeAlarm : Option ActiveAlarm
  alarmSentence : String
  intervalRefSet : Bool
  liveIntervals : Nat
  cleanupRegistered : Bool
deriving DecidableEq

/-- The `clearInterval` guarded by the ref check (src/App.tsx lines 143-146
and 158-161): stop the interval the ref points to and null the ref. -/
def clearIntervalIfSet (s : VibState) : VibState :=
  if s.intervalRefSet then
    { s with intervalRefSet := false, liveIntervals := s.liveIntervals - 1 }
  else s

/-- One run of the vibration effect body (src/App.tsx lines 141-156): with no
session, clear any running interval, cancel vibration, reset the typed
sentence, and register no cleanup; with a session, vibrate and start the
repeating interval, and register a cleanup. -/
def runVibrationEffect (s : VibState) : VibState :=
  match s.activeAlarm with
  | none => { clearIntervalIfSet s with alarmSentence := "", cleanupRegistered := false }
  | some _ =>
      { s with
          intervalRefSet := true
          liveIntervals := s.liveIntervals + 1
          cleanupRegistered := true }

/-- One run of the cleanup returned by the previous effect run (src/App.tsx
lines 157-163), a no-op when the previous run registered none. -/
def runVibrationCleanup (s : VibState) : VibState :=
  if s.cleanupRegistered then { clearIntervalIfSet s with cleanupRegistered := false } else s

/-- The events that drive the vibration machinery: a change of the
`activeAlarm` state (re-running the effect after its cleanup) and the user
typing into the confirmation input (possible only while the modal is
visible). -/
inductive VibEvent
  | alarmChange (a : Option ActiveAlarm)
  | typeSentence (t : String)

def vibStep : VibEvent → VibState → VibState
  | VibEvent.alarmChange a, s => runVibrationEffect (runVibrationCleanup { s with activeAlarm := a })
  | VibEvent.typeSentence t, s =>
      match s.activeAlarm with
      | some _ => { s with alarmSentence := t }
      | none => s

/-- Component teardown: React runs the last registered cleanup. -/
def vibTeardown (s : VibState) : VibState := runVibrationCleanup s

/-- The state after mount: the initial component state (no session, empty
sentence, null ref, no timer) followed by the first run of the effect. -/
def vibMount : VibState :=
  runVibrationEffect ⟨none, "", false, 0, false⟩

/-- The states the vibration machinery can reach. -/
inductive VibReachable : VibState → Prop
  | mount : VibReachable vibMount
  | step (e : VibEvent) {s : VibState} : VibReachable s → VibReachable (vibStep e s)

theorem vib_invariant (s : VibState) (hs : VibReachable s) :
    s.liveIntervals = (if s.activeAlarm.isSome then 1 else 0) ∧
    s.intervalRefSet = s.activeAlarm.isSome ∧
    s.cleanupRegistered = s.activeAlarm.isSome ∧
    (s.activeAlarm = none → s.alarmSentence = "") := by
  induction hs with
  | mount => simp [vibMount, runVibrationEffect, clearIntervalIfSet]
  | step e hprev ih =>
      rename_i t
      obtain ⟨ta, tsen, tref, tlive, tclean⟩ := t
      obtain ⟨ih1, ih2, ih3, ih4⟩ := ih
      simp only at ih1 ih2 ih3 ih4
      cases e with
      | alarmChange a =>
          cases ta with
          | none =>
              have hsen : tsen = "" := ih4 rfl
              simp only [Option.isSome_none, Bool.if_false_right] at ih1 ih2 ih3
              subst hsen
              subst ih2
              subst ih3
              have hlive : tlive = 0 := by simpa using ih1
              subst hlive
              cases a <;>
                simp [vibStep, runVibrationCleanup, runVibrationEffect, clearIntervalIfSet]
          | some a0 =>
              simp only [Option.isSome_some, if_true] at ih1 ih2 ih3
              subst ih2
              subst ih3
              subst ih1
              cases a <;>
                simp [vibStep, runVibrationCleanup, runVibrationEffect, clearIntervalIfSet]
      | typeSentence txt =>
          cases ta with
          | none =>
              simp only [Option.isSome_none] at ih1 ih2 ih3
              simp [vibStep, ih1, ih2, ih3, ih4]
          | some a0 =>
              simp only [Option.isSome_some, if_true] at ih1 ih2 ih3
              simp [vibStep, ih1, ih2, ih3]

/-- C8: in every reachable state, at most one interval timer is alive; while
the session is active exactly one is, and while the session is idle none is
and the typed confirmation text is empty (so entering Active always finds a
cleared text buffer). Every exit from Active stops the timer: a transition of
the session to Idle leaves zero live timers and resets the text buffer, and
component teardown leaves zero live timers. Entering Active starts the one
timer. -/
theorem C8_vibration_lifecycle (s : VibState) (hs : VibReachable s) :
    s.liveIntervals ≤ 1 ∧
    (s.activeAlarm.isSome = true → s.liveIntervals = 1) ∧
    (s.activeAlarm = none → s.liveIntervals = 0 ∧ s.alarmSentence = "") ∧
    (vibStep (VibEvent.alarmChange none) s).liveIntervals = 0 ∧
    (vibStep (VibEvent.alarmChange none) s).alarmSentence = "" ∧
    (∀ a : ActiveAlarm,
      (vibStep (VibEvent.alarmChange (some a)) s).liveIntervals = 1 ∧
      (s.activeAlarm = none →
        (vibStep (VibEvent.alarmChange (some a)) s).alarmSentence = s.alarmSentence)) ∧
    (vibTeardown s).liveIntervals = 0 := by
  obtain ⟨inv1, inv2, inv3, inv4⟩ := vib_invariant s hs
  obtain ⟨sa, ssen, sref, slive, sclean⟩ := s
  simp only at inv1 inv2 inv3 inv4
  cases sa with
  | none =>
      have hsen : ssen = "" := inv4 rfl
      simp only [Option.isSome_none] at inv1 inv2 inv3
      subst hsen
      subst inv2
      subst inv3
      have hlive : slive = 0 := by simpa using inv1
      subst hlive
      simp [vibStep, vibTeardown, runVibrationCleanup, runVibrationEffect, clearIntervalIfSet]
  | some a0 =>
      simp only [Option.isSome_some, if_true] at inv1 inv2 inv3
      subst inv2
      subst inv3
      subst inv1
      simp [vibStep, vibTeardown, runVibrationCleanup, runVibrationEffect, clearIntervalIfSet]

theorem C8_vibration_lifecycle_witness :
    (vibStep (VibEvent.alarmChange (some ⟨"m1", "Tuna"⟩)) vibMount).liveIntervals = 1 ∧
    (vibTeardown (vibStep (VibEvent.alarmChange (some ⟨"m1", "Tuna"⟩)) vibMount)).liveIntervals
      = 0 :=
  ⟨((C8_vibration_lifecycle vibMount VibReachable.mount).2.2.2.2.2.1 ⟨"m1", "Tuna"⟩).1,
    (C8_vibration_lifecycle _
      (VibReachable.step (VibEvent.alarmChange (some ⟨"m1", "Tuna"⟩))
        VibReachable.mount)).2.2.2.2.2.2⟩

/-! ## Claim C9: persistence (src/App.tsx lines 87-90 and 104-109)

The persist effect has dependency `[meals]`: per React semantics it runs once
after mount with the initial list and again after every change of `meals`,
each run overwriting the one storage key with the full serialized list. The
load in `setupNotifications` (an effect with dependency `[]`) issues its
`getItem` only after two awaited permission calls, while the persist effect
issues its first `setItem` synchronously during mount, so in the order the
component issues storage operations the mount-time write of the initial
(empty) list precedes the startup read. -/

/-- The storage operations on the single key, in the order the component
issues them. -/
inductive StorageOp
  | read
  | write (list : List MealEntry)
deriving DecidableEq

/-- The meal list React initializes the component with (src/App.tsx line 60). -/
def initialMeals : List MealEntry := []

/-- Mutation-and-write log of the persist effect: `mutations` counts the
`setMeals` calls performed so far, `writes` the storage writes issued so far. -/
structure PersistLog where
  meals : List MealEntry
  mutations : Nat
  writes : List (List MealEntry)
deriving DecidableEq

/-- The log right after mount: no mutation has happened, yet the persist
effect has already run once, writing the initial (empty) list. -/
def mountPersistLog : PersistLog := ⟨initialMeals, 0, [initialMeals]⟩

/-- A `setMeals` mutation: the persist effect re-runs and writes the new full
list. -/
def setMealsEvent (list : List MealEntry) (log : PersistLog) : PersistLog :=
  ⟨list, log.mutations + 1, log.writes ++ [list]⟩

/-- The startup load (src/App.tsx lines 87-90): when the key holds a list it
replaces the in-memory state unconditionally (no merge) via `setMeals`;
when the key is absent nothing changes. -/
def applyStartupLoad (stored : Option (List MealEntry)) (log : PersistLog) : PersistLog :=
  match stored with
  | none => log
  | some loaded => setMealsEvent loaded log

/-- The storage operations the component issues during startup, in issue
order: first the mount-time write of the persist effect, then the read of the
load. -/
def startupStorageOps : List StorageOp := [StorageOp.write initialMeals, StorageOp.read]

/-- C9 evaluation at the failing input (process start): at mount the persist
effect has issued one full-list write of the initial empty list although zero
mutations of the in-memory list have occurred, and in issue order that write
precedes the startup read, contradicting write-after-mutate-only ordering.
(The unconditional replacement by the startup load, and the write after
every mutation, do hold: `applyStartupLoad` with a stored list replaces the
whole list and appends one write.) -/
theorem C9_mount_write_without_mutation :
    mountPersistLog.mutations = 0 ∧
    mountPersistLog.writes = [[]] ∧
    startupStorageOps = [StorageOp.write [], StorageOp.read] ∧
    (∀ stored : List MealEntry,
      (applyStartupLoad (some stored) mountPersistLog).meals = stored ∧
      (applyStartupLoad (some stored) mountPersistLog).writes = [[], stored]) := by
  refine ⟨rfl, rfl, rfl, fun stored => ⟨rfl, rfl⟩⟩

end FoodWastePreventer
